import Mathlib

/-!
# Verification of the cmdrdata-anthropic usage-tracking SDK

This development embeds the behaviour of the cmdrdata-anthropic SDK in Lean 4
and proves properties of it.

Two parts of the repository are treated:

* the tracked-call proxy and the `messages.create` usage extractor
  (`cmdrdata_anthropic/proxy.py`).  That module is not among the provided
  source files — only its test-suite `tests/test_proxy.py` is — so the
  definitions in the first half of this file are modelled from the
  specification (§4.1–§4.4) and are marked as such;
* the multi-source configuration loader `cmdrdata_anthropic/auto_config.py`,
  whose source is present and is translated faithfully.
-/

/-! ## Python-value scaffolding -/

/-- A small universe of Python values, enough for keyword arguments such as
`customer_id` (a string), `track_usage` (a bool), and arbitrary extras. -/
inductive PyVal where
  | none : PyVal
  | bool : Bool → PyVal
  | int : Int → PyVal
  | str : String → PyVal
deriving Repr, DecidableEq

/-- Python truthiness of a `PyVal` (`None` and `False` and `0` and `""` are
falsy, everything else truthy). -/
def PyVal.truthy : PyVal → Bool
  | .none => false
  | .bool b => b
  | .int n => n != 0
  | .str s => !s.isEmpty

/-- An exception raised by the wrapped client: a message plus an optional
numeric `status_code` attribute (as on Anthropic API errors). -/
structure Exn where
  message : String
  status_code : Option Nat
deriving Repr, DecidableEq

/-- Outcome of invoking a wrapped method: a normal return value or a raised
exception. -/
inductive CallOutcome (α : Type) where
  | ok : α → CallOutcome α
  | exn : Exn → CallOutcome α
deriving Repr, DecidableEq

/-! ## Error classifier (spec §4.3) -/

/-- Modelled from the spec: the Error Classifier maps a raised error to an
`(error_type, error_code)` pair by inspecting the numeric status code when
available (401→authentication, 429→rate_limit, 5xx→server_error,
4xx other→invalid_request); the spec leaves the no-status-code fallback to
message inspection, which it does not further determine, so errors without a
status code are modelled as the spec's catch-all `unknown`. -/
def classify_error (e : Exn) : String × String :=
  match e.status_code with
  | some c =>
    if c = 401 then ("authentication", toString c)
    else if c = 429 then ("rate_limit", toString c)
    else if 500 ≤ c then ("server_error", toString c)
    else if 400 ≤ c then ("invalid_request", toString c)
    else ("unknown", toString c)
  | Option.none => ("unknown", "unknown")

/-! ## Keyword-argument handling of the proxy (spec §4.1)

Python keyword arguments form a dict with unique keys; they are modelled as
an association list, and `dict.pop(key, None)` as returning the first value
bound to the key while removing every binding of that key. -/

/-- Model of `kwargs.pop(key, None)`: the popped value (if the key is
present) together with the remaining keyword arguments. -/
def popKwarg (kwargs : List (String × PyVal)) (key : String) :
    Option PyVal × List (String × PyVal) :=
  ((kwargs.find? (fun p => p.1 == key)).map Prod.snd,
   kwargs.filter (fun p => p.1 != key))

/-- The keyword arguments actually forwarded to the wrapped method: `kwargs`
with the tracking-only keys `customer_id` and `track_usage` removed. -/
def cleanedKwargs (kwargs : List (String × PyVal)) : List (String × PyVal) :=
  (popKwarg (popKwarg kwargs "customer_id").2 "track_usage").2

/-- The `customer_id` value popped from the call's keyword arguments. -/
def poppedCustomerId (kwargs : List (String × PyVal)) : Option PyVal :=
  (popKwarg kwargs "customer_id").1

/-- The resolved tracking-enabled flag: the truthiness of the popped
`track_usage` keyword, defaulting to `true` when absent. -/
def trackEnabled (kwargs : List (String × PyVal)) : Bool :=
  match (popKwarg (popKwarg kwargs "customer_id").2 "track_usage").1 with
  | some v => v.truthy
  | Option.none => true

/-- The keyword-argument record the proxy passes to a registered tracking
function (the extractor), as asserted field-by-field in `tests/test_proxy.py`. -/
structure TrackCall (α : Type) where
  result : Option α
  customer_id : Option PyVal
  method_name : String
  args : List PyVal
  kwargs : List (String × PyVal)
  error_occurred : Bool := false
  error_type : Option String := Option.none
  error_code : Option String := Option.none
  error_message : Option String := Option.none
  request_start_time : Option Nat := Option.none
  request_end_time : Option Nat := Option.none
deriving Repr, DecidableEq

/-- Everything observable about one intercepted call: what the caller gets
back, the positional/keyword arguments the wrapped method actually received,
and the invocations of the registered tracking function. -/
structure ProxyCallResult (α : Type) where
  outcome : CallOutcome α
  forwarded_args : List PyVal
  forwarded_kwargs : List (String × PyVal)
  track_calls : List (TrackCall α)
deriving Repr, DecidableEq

/-- The proxy-side `try: track_func(...) except Exception: log` boundary:
whatever the tracking call's outcome, execution continues with `y`. -/
def swallow {β : Type} (x : Except String Unit) (y : β) : β :=
  match x with
  | .ok _ => y
  | .error _ => y

/-- Modelled from the spec (§4.1, `proxy.py` is not among the provided
sources): interception of one registered method call.  The proxy pops
`customer_id` and `track_usage` from the keyword arguments, records start and
end timestamps, invokes the wrapped method with the cleaned arguments, and —
when tracking is enabled — invokes the registered tracking function: on
success with the result, on failure with `result := none` and the classified
error fields, swallowing any tracking-function failure (`Except.error`) in
both cases; the wrapped call's own outcome is returned/re-raised unchanged. -/
def interceptCall {α : Type}
    (method : List PyVal → List (String × PyVal) → CallOutcome α)
    (track_func : TrackCall α → Except String Unit)
    (method_name : String) (args : List PyVal) (kwargs : List (String × PyVal))
    (start_time end_time : Nat) : ProxyCallResult α :=
  let customer_id := poppedCustomerId kwargs
  let kwargs2 := cleanedKwargs kwargs
  match method args kwargs2 with
  | .ok r =>
    if trackEnabled kwargs then
      let tc : TrackCall α :=
        { result := some r, customer_id := customer_id,
          method_name := method_name, args := args, kwargs := kwargs2,
          request_start_time := some start_time,
          request_end_time := some end_time }
      swallow (track_func tc) ⟨.ok r, args, kwargs2, [tc]⟩
    else ⟨.ok r, args, kwargs2, []⟩
  | .exn e =>
    if trackEnabled kwargs then
      let ec := classify_error e
      let tc : TrackCall α :=
        { result := Option.none, customer_id := customer_id,
          method_name := method_name, args := args, kwargs := kwargs2,
          error_occurred := true,
          error_type := some ec.1, error_code := some ec.2,
          error_message := some e.message,
          request_start_time := some start_time,
          request_end_time := some end_time }
      swallow (track_func tc) ⟨.exn e, args, kwargs2, [tc]⟩
    else ⟨.exn e, args, kwargs2, []⟩

/-! ## Nested proxies (spec §4.1, §9)

The spec prescribes representing dotted registration keys "as a trie or
prefix-grouped map keyed by path segment"; a dotted key such as
`"messages.create"` is therefore modelled as the segment list
`["messages", "create"]`. -/

/-- The wrapped client, as a tree: a callable leaf method, or a namespace
object with named attributes. -/
inductive Client (α : Type) where
  | leaf : (List PyVal → List (String × PyVal) → CallOutcome α) → Client α
  | node : List (String × Client α) → Client α

/-- Attribute lookup on the wrapped client (`none` models `AttributeError`). -/
def lookupAttr {α : Type} (c : Client α) (name : String) : Option (Client α) :=
  match c with
  | .leaf _ => Option.none
  | .node fields => (fields.find? (fun p => p.1 == name)).map Prod.snd

/-- A registry of tracked method paths (segment lists) with their tracking
functions, together with the wrapped client. -/
structure TrackedProxy (α : Type) where
  client : Client α
  registry : List (List String × (TrackCall α → Except String Unit))

/-- Does a registered path descend through attribute `name` (i.e. is some
registered path rooted at `name` with a non-empty suffix)? -/
def rootsAt {α : Type} (p : TrackedProxy α) (name : String) : Bool :=
  p.registry.any (fun kv =>
    match kv.1 with
    | a :: _ :: _ => a == name
    | _ => false)

/-- The sub-registry for the sub-object behind attribute `name`: the
registered paths rooted at `name`, with that first segment stripped. -/
def subRegistry {α : Type}
    (registry : List (List String × (TrackCall α → Except String Unit)))
    (name : String) : List (List String × (TrackCall α → Except String Unit)) :=
  (registry.filter (fun kv =>
    match kv.1 with
    | a :: _ :: _ => a == name
    | _ => false)).map (fun kv => (kv.1.tail, kv.2))

/-- Result of attribute access on the proxy: a nested proxy when a registered
path descends through the attribute, the raw attribute otherwise, or a
missing-attribute error exactly as on the raw client. -/
inductive AttrResult (α : Type) where
  | nested : TrackedProxy α → AttrResult α
  | raw : Client α → AttrResult α
  | missing : AttrResult α

/-- Modelled from the spec (§4.1, `proxy.py` is not among the provided
sources): attribute resolution on the proxy.  An attribute absent on the
wrapped client fails exactly like direct access; an attribute through which a
registered path descends yields a nested proxy carrying the path suffixes. -/
def TrackedProxy.getattr {α : Type} (p : TrackedProxy α) (name : String) :
    AttrResult α :=
  match lookupAttr p.client name with
  | Option.none => .missing
  | some sub =>
    if rootsAt p name then .nested ⟨sub, subRegistry p.registry name⟩
    else .raw sub

/-- Modelled from the spec (§4.1, `proxy.py` is not among the provided
sources): calling a method `name` on the proxy.  A method registered under
the flat path `[name]` goes through `interceptCall`; an unregistered method
passes straight through with zero extraction overhead; a non-method
attribute is not callable (`none`). -/
def TrackedProxy.callMethod {α : Type} (p : TrackedProxy α) (name : String)
    (args : List PyVal) (kwargs : List (String × PyVal))
    (start_time end_time : Nat) : Option (ProxyCallResult α) :=
  match lookupAttr p.client name with
  | some (.leaf m) =>
    match p.registry.find? (fun kv => kv.1 == [name]) with
    | some kv => some (interceptCall m kv.2 name args kwargs start_time end_time)
    | Option.none => some ⟨m args kwargs, args, kwargs, []⟩
  | _ => Option.none

/-! ## The `messages.create` usage extractor (spec §4.2) -/

/-- Token usage reported on an Anthropic response. -/
structure Usage where
  input_tokens : Nat
  output_tokens : Nat
deriving Repr, DecidableEq

/-- The fields of an Anthropic `messages.create` response that the extractor
reads; `usage := none` models a response object with no usage attribute
(e.g. a streaming partial response). -/
structure AnthropicResponse where
  id : String
  type : String
  role : String
  model : String
  stop_reason : Option String
  stop_sequence : Option String
  usage : Option Usage
deriving Repr, DecidableEq

/-- The response-derived metadata packaged into a usage record. -/
structure ResponseMetadata where
  response_id : String
  type : String
  role : String
  stop_reason : Option String
  stop_sequence : Option String
deriving Repr, DecidableEq

/-- One submission to the Background Tracker's asynchronous entry point
(`track_usage_background`), with the fields of spec §6; `metadata := none`
means no result-derived metadata is attached. -/
structure Submission where
  customer_id : Option String
  model : String
  input_tokens : Nat
  output_tokens : Nat
  provider : String
  metadata : Option ResponseMetadata
  error_occurred : Bool
  error_type : Option String
  error_code : Option String
  error_message : Option String
  request_id : Option String
  request_start_time : Option Nat
  request_end_time : Option Nat
deriving Repr, DecidableEq

/-- The metadata the extractor derives from a successful response. -/
def responseMetadata (r : AnthropicResponse) : ResponseMetadata :=
  { response_id := r.id, type := r.type, role := r.role,
    stop_reason := r.stop_reason, stop_sequence := r.stop_sequence }

/-- Modelled from the spec (§4.2, `proxy.py` is not among the provided
sources): the `messages.create` extractor.  On an error call it emits one
zero-token record carrying the classified error fields (the model name is
taken from the call's `model` keyword).  On a success call it emits one
record with the model, token counts and metadata pulled from the result,
resolving a missing customer id from the ambient context; if the result has
no usage field at all, it deliberately emits nothing.  The returned list is
the sequence of submissions made to the tracker. -/
def track_messages_create (result : Option AnthropicResponse)
    (customer_id : Option String) (kwargs_model : Option String)
    (error_occurred : Bool)
    (error_type error_code error_message request_id : Option String)
    (request_start_time request_end_time : Option Nat)
    (ambient_customer_id : Option String) : List Submission :=
  if error_occurred then
    [{ customer_id := customer_id, model := kwargs_model.getD "unknown",
       input_tokens := 0, output_tokens := 0, provider := "anthropic",
       metadata := Option.none, error_occurred := true,
       error_type := error_type, error_code := error_code,
       error_message := error_message, request_id := request_id,
       request_start_time := request_start_time,
       request_end_time := request_end_time }]
  else
    match result with
    | Option.none => []
    | some r =>
      match r.usage with
      | Option.none => []
      | some u =>
        let cid := match customer_id with
          | some c => some c
          | Option.none => ambient_customer_id
        [{ customer_id := cid, model := r.model,
           input_tokens := u.input_tokens, output_tokens := u.output_tokens,
           provider := "anthropic", metadata := some (responseMetadata r),
           error_occurred := false, error_type := Option.none,
           error_code := Option.none, error_message := Option.none,
           request_id := request_id,
           request_start_time := request_start_time,
           request_end_time := request_end_time }]

/-! ## Multi-source configuration loading (`cmdrdata_anthropic/auto_config.py`)

`AutoConfig.load_config` reads, in order: the process environment, a `.env`
file in the current directory, `~/.cmdrdata/config.json`, and
`.cmdrdata.json`.  The filesystem and environment are modelled as an
explicit state; a file is either absent (`none`), present but unreadable or
malformed (`some (.error ())` — every such failure is caught by the
function's bare `except: pass`), or present with parsed content. -/

/-- The two fields of a JSON config file that `load_config` reads
(`data.get("api_key")`, `data.get("api_url")`); `none` models an absent or
null field. -/
structure JsonConfig where
  api_key : Option String
  api_url : Option String
deriving Repr, DecidableEq

/-- The environment and filesystem state `load_config` consults. -/
structure FsState where
  env_api_key : Option String
  env_api_url : Option String
  dotenv : Option (Except Unit (List String))
  home_config : Option (Except Unit JsonConfig)
  project_config : Option (Except Unit JsonConfig)

/-- The configuration dict built by `load_config`: both keys are always
present; a `none` value models Python `None`. -/
structure Config where
  api_key : Option String
  api_url : Option String
deriving Repr, DecidableEq

/-- The default CmdrData endpoint. -/
def defaultApiUrl : String := "https://api.cmdrdata.ai"

/-- Python truthiness of an optional string (`not config["api_key"]`):
`None` and `""` are falsy. -/
def struthy : Option String → Bool
  | Option.none => false
  | some s => !s.isEmpty

/-- Translation of `line.startswith(p)`, computed on the underlying character
lists. -/
def startsWithStr (line p : String) : Bool :=
  p.data.isPrefixOf line.data

/-- Python `str.strip()` on a character list: whitespace removed from both
ends. -/
def trimChars (cs : List Char) : List Char :=
  ((cs.dropWhile Char.isWhitespace).reverse.dropWhile Char.isWhitespace).reverse

/-- Translation of `line.split("=", 1)[1].strip()`: everything after the
first `=`, whitespace-stripped (callers only apply this to lines that
contain `=`). -/
def envLineValue (line : String) : String :=
  ⟨trimChars ((line.data.dropWhile (fun c => c != '=')).tail)⟩

/-- Is this a `CMDRDATA_API_KEY=` line of the `.env` file (the `if` branch of
the reading loop)? -/
def isKeyLine (line : String) : Bool :=
  startsWithStr line "CMDRDATA_API_KEY="

/-- Does this `.env` line set the url (the `elif` branch of the reading loop:
a `CMDRDATA_API_URL=` line that is not a `CMDRDATA_API_KEY=` line)? -/
def isUrlLine (line : String) : Bool :=
  !startsWithStr line "CMDRDATA_API_KEY=" && startsWithStr line "CMDRDATA_API_URL="

/-- One iteration of the `.env` reading loop: a `CMDRDATA_API_KEY=` line sets
the key, otherwise a `CMDRDATA_API_URL=` line sets the url. -/
def applyDotenvLine (cfg : Config) (line : String) : Config :=
  if startsWithStr line "CMDRDATA_API_KEY=" then
    { cfg with api_key := some (envLineValue line) }
  else if startsWithStr line "CMDRDATA_API_URL=" then
    { cfg with api_url := some (envLineValue line) }
  else cfg

/-- The body of the `try` in steps 3 and 4 of `load_config`: take the file's
`api_key` if none is held yet, and its `api_url` if that is truthy. -/
def applyJsonConfig (cfg : Config) (d : JsonConfig) : Config :=
  let cfg1 := if !struthy cfg.api_key then { cfg with api_key := d.api_key }
              else cfg
  if struthy d.api_url then { cfg1 with api_url := d.api_url } else cfg1

/-- Step 1 of `load_config`: environment variables (highest priority),
starting from `{"api_key": None, "api_url": "https://api.cmdrdata.ai"}`. -/
def stage_env (fs : FsState) : Config :=
  let c0 : Config := { api_key := Option.none, api_url := some defaultApiUrl }
  let c1 := if struthy fs.env_api_key then { c0 with api_key := fs.env_api_key }
            else c0
  if struthy fs.env_api_url then { c1 with api_url := fs.env_api_url } else c1

/-- Step 2 of `load_config`: the `.env` file, consulted only while no api
key has been found; read failures are swallowed. -/
def stage_dotenv (file : Option (Except Unit (List String))) (cfg : Config) :
    Config :=
  match file with
  | some (.ok lines) =>
    if !struthy cfg.api_key then lines.foldl applyDotenvLine cfg else cfg
  | _ => cfg

/-- Steps 3 and 4 of `load_config`: a JSON config file, consulted only while
no api key has been found; read/parse failures are swallowed. -/
def stage_json (file : Option (Except Unit JsonConfig)) (cfg : Config) :
    Config :=
  match file with
  | some (.ok d) =>
    if !struthy cfg.api_key then applyJsonConfig cfg d else cfg
  | _ => cfg

/-- The loader `AutoConfig.load_config`, translated from
`cmdrdata_anthropic/auto_config.py`: environment, then `.env`, then
`~/.cmdrdata/config.json`, then `.cmdrdata.json`, each file stage guarded by
`not config["api_key"]`.  The function is total: every read/parse failure is
absorbed by the corresponding stage. -/
def AutoConfig.load_config (fs : FsState) : Config :=
  stage_json fs.project_config
    (stage_json fs.home_config
      (stage_dotenv fs.dotenv (stage_env fs)))

/-- Translation of `AutoConfig.get_api_url`: `config.get("api_url", default)`. -/
def AutoConfig.get_api_url (fs : FsState) : String :=
  (AutoConfig.load_config fs).api_url.getD defaultApiUrl

/-! ### The resolution policy as the specification words it

For the refinement claim about configuration priority, the spec's own words
("in priority order: process environment variables, a local dotenv-style
file, a user-level persisted config, a project-level config file", each of
the two values independently) are formalised below, to be compared with
`AutoConfig.load_config`. -/

/-- The api key the `.env` source defines: the value of the last
`CMDRDATA_API_KEY=` line (the reading loop overwrites), if the file is
readable. -/
def srcDotenvKey (file : Option (Except Unit (List String))) : Option String :=
  match file with
  | some (.ok lines) => (lines.reverse.find? isKeyLine).map envLineValue
  | _ => Option.none

/-- The api key a JSON config source defines, if the file is readable and
parses. -/
def srcJsonKey (file : Option (Except Unit JsonConfig)) : Option String :=
  match file with
  | some (.ok d) => d.api_key
  | _ => Option.none

/-- The api-key value each source defines, in priority order. -/
def sourceApiKeys (fs : FsState) : List (Option String) :=
  [fs.env_api_key, srcDotenvKey fs.dotenv,
   srcJsonKey fs.home_config, srcJsonKey fs.project_config]

/-- The api-url value each source defines, in priority order. -/
def sourceApiUrls (fs : FsState) : List (Option String) :=
  [fs.env_api_url,
   match fs.dotenv with
   | some (.ok lines) => (lines.reverse.find? isUrlLine).map envLineValue
   | _ => Option.none,
   match fs.home_config with
   | some (.ok d) => d.api_url
   | _ => Option.none,
   match fs.project_config with
   | some (.ok d) => d.api_url
   | _ => Option.none]

/-- Strict per-value priority resolution as the spec states it: for each of
the two values independently, the highest-priority source that defines it
wins; the url falls back to the default. -/
def strictPriorityResolve (fs : FsState) : Config :=
  { api_key := (sourceApiKeys fs).findSome? id,
    api_url := some (((sourceApiUrls fs).findSome? id).getD defaultApiUrl) }

/-- The highest-priority source value that is a non-empty api key. -/
def highestTruthyKey (fs : FsState) : Option String :=
  (sourceApiKeys fs).findSome? (fun o => if struthy o then o else Option.none)

/-- Does any source supply an api url? (Environment url set and non-empty, a
`CMDRDATA_API_URL=` line in a readable `.env`, or a truthy `api_url` field
in a readable config file.) -/
def someSourceSuppliesUrl (fs : FsState) : Bool :=
  struthy fs.env_api_url ||
  (match fs.dotenv with
   | some (.ok lines) => lines.any (fun l => startsWithStr l "CMDRDATA_API_URL=")
   | _ => false) ||
  (match fs.home_config with
   | some (.ok d) => struthy d.api_url
   | _ => false) ||
  (match fs.project_config with
   | some (.ok d) => struthy d.api_url
   | _ => false)

/-! ### Concrete environment/filesystem states used as witnesses -/

/-- A state in which a higher-priority source (`.env`) defines the api url
but a lower-priority source (the user-level config) ends up supplying it:
the environment defines nothing, `.env` defines only the url, and
`~/.cmdrdata/config.json` defines both key and url. -/
def fsC9 : FsState :=
  { env_api_key := Option.none, env_api_url := Option.none,
    dotenv := some (.ok ["CMDRDATA_API_URL=http://dotenv.example"]),
    home_config := some (.ok { api_key := some "home-key",
                               api_url := some "http://home.example" }),
    project_config := Option.none }

/-- A state in which the environment supplies the api key and `.env` defines
a url: the url from `.env` is then ignored. -/
def fsAmend : FsState :=
  { env_api_key := some "env-key", env_api_url := Option.none,
    dotenv := some (.ok ["CMDRDATA_API_URL=http://dotenv.example"]),
    home_config := Option.none, project_config := Option.none }

/-- A state with an unreadable user-level config and a `.env` that supplies
only an api key — no source supplies a url. -/
def fsNoUrl : FsState :=
  { env_api_key := Option.none, env_api_url := Option.none,
    dotenv := some (.ok ["CMDRDATA_API_KEY=dotenv-key"]),
    home_config := some (.error ()), project_config := Option.none }

/-! ## Helper lemmas about `interceptCall` -/

/-- The tracking boundary never changes the value it protects. -/
theorem swallow_eq {β : Type} (x : Except String Unit) (y : β) :
    swallow x y = y := by
  cases x <;> rfl

/-- The positional arguments always reach the wrapped method unchanged. -/
theorem interceptCall_forwarded_args {α : Type}
    (method : List PyVal → List (String × PyVal) → CallOutcome α)
    (track_func : TrackCall α → Except String Unit)
    (name : String) (args : List PyVal) (kwargs : List (String × PyVal))
    (s e : Nat) :
    (interceptCall method track_func name args kwargs s e).forwarded_args = args := by
  unfold interceptCall
  cases h : method args (cleanedKwargs kwargs) <;>
    by_cases ht : trackEnabled kwargs <;> simp [h, ht, swallow_eq]

/-- The wrapped method always receives exactly the cleaned keyword
arguments. -/
theorem interceptCall_forwarded_kwargs {α : Type}
    (method : List PyVal → List (String × PyVal) → CallOutcome α)
    (track_func : TrackCall α → Except String Unit)
    (name : String) (args : List PyVal) (kwargs : List (String × PyVal))
    (s e : Nat) :
    (interceptCall method track_func name args kwargs s e).forwarded_kwargs =
      cleanedKwargs kwargs := by
  unfold interceptCall
  cases h : method args (cleanedKwargs kwargs) <;>
    by_cases ht : trackEnabled kwargs <;> simp [h, ht, swallow_eq]

/-- The caller always sees exactly the wrapped call's own outcome. -/
theorem interceptCall_outcome {α : Type}
    (method : List PyVal → List (String × PyVal) → CallOutcome α)
    (track_func : TrackCall α → Except String Unit)
    (name : String) (args : List PyVal) (kwargs : List (String × PyVal))
    (s e : Nat) :
    (interceptCall method track_func name args kwargs s e).outcome =
      method args (cleanedKwargs kwargs) := by
  unfold interceptCall
  cases h : method args (cleanedKwargs kwargs) <;>
    by_cases ht : trackEnabled kwargs <;> simp [h, ht, swallow_eq]

/-- Full characterisation of the tracking-function invocations of one
intercepted call. -/
theorem interceptCall_track_calls {α : Type}
    (method : List PyVal → List (String × PyVal) → CallOutcome α)
    (track_func : TrackCall α → Except String Unit)
    (name : String) (args : List PyVal) (kwargs : List (String × PyVal))
    (s e : Nat) :
    (interceptCall method track_func name args kwargs s e).track_calls =
      if trackEnabled kwargs then
        match method args (cleanedKwargs kwargs) with
        | .ok r =>
          [{ result := some r, customer_id := poppedCustomerId kwargs,
             method_name := name, args := args, kwargs := cleanedKwargs kwargs,
             request_start_time := some s, request_end_time := some e }]
        | .exn ex =>
          [{ result := Option.none, customer_id := poppedCustomerId kwargs,
             method_name := name, args := args, kwargs := cleanedKwargs kwargs,
             error_occurred := true,
             error_type := some (classify_error ex).1,
             error_code := some (classify_error ex).2,
             error_message := some ex.message,
             request_start_time := some s, request_end_time := some e }]
      else [] := by
  unfold interceptCall
  cases h : method args (cleanedKwargs kwargs) <;>
    by_cases ht : trackEnabled kwargs <;> simp [h, ht, swallow_eq]

/-- C1: if the wrapped call raises with status code 500, the proxy invokes
the tracking function with `result = none`, `error_occurred = true`,
`error_type = "server_error"`, `error_code = "500"`, an error message equal
to (hence containing) the exception's message, and `some`-valued request
start/end timestamps, and re-raises the original exception unchanged. -/
theorem proxy_server_error_tracked_and_reraised {α : Type}
    (method : List PyVal → List (String × PyVal) → CallOutcome α)
    (track_func : TrackCall α → Except String Unit)
    (name : String) (args : List PyVal) (kwargs : List (String × PyVal))
    (s e : Nat) (ex : Exn)
    (hm : method args (cleanedKwargs kwargs) = .exn ex)
    (hs : ex.status_code = some 500)
    (ht : trackEnabled kwargs = true) :
    (interceptCall method track_func name args kwargs s e).outcome = .exn ex ∧
    (interceptCall method track_func name args kwargs s e).track_calls =
      [{ result := Option.none, customer_id := poppedCustomerId kwargs,
         method_name := name, args := args, kwargs := cleanedKwargs kwargs,
         error_occurred := true, error_type := some "server_error",
         error_code := some "500", error_message := some ex.message,
         request_start_time := some s, request_end_time := some e }] := by
  have hc : classify_error ex = ("server_error", "500") := by
    simp [classify_error, hs]
    decide
  constructor
  · rw [interceptCall_outcome, hm]
  · rw [interceptCall_track_calls, ht, if_pos rfl, hm]
    simp [hc]

/-- Concrete instance of the 500-error claim, mirroring
`test_proxy_tracks_api_error`. -/
theorem proxy_server_error_witness :
    (interceptCall (α := Nat) (fun _ _ => .exn ⟨"API call failed", some 500⟩)
        (fun _ => .ok ()) "tracked_method" [.str "arg1"]
        [("kwarg", .str "value")] 3 7).outcome
      = .exn ⟨"API call failed", some 500⟩ ∧
    (interceptCall (α := Nat) (fun _ _ => .exn ⟨"API call failed", some 500⟩)
        (fun _ => .ok ()) "tracked_method" [.str "arg1"]
        [("kwarg", .str "value")] 3 7).track_calls =
      [{ result := Option.none, customer_id := Option.none,
         method_name := "tracked_method", args := [.str "arg1"],
         kwargs := [("kwarg", .str "value")],
         error_occurred := true, error_type := some "server_error",
         error_code := some "500", error_message := some "API call failed",
         request_start_time := some 3, request_end_time := some 7 }] :=
  proxy_server_error_tracked_and_reraised _ _ _ _ _ _ _ _ rfl rfl rfl

/-- C2: even when the tracking function always raises, a successful wrapped
call's result is returned to the caller unchanged — no tracking-side
exception propagates. -/
theorem proxy_swallows_tracking_failure {α : Type}
    (method : List PyVal → List (String × PyVal) → CallOutcome α)
    (track_func : TrackCall α → Except String Unit)
    (name : String) (args : List PyVal) (kwargs : List (String × PyVal))
    (s e : Nat) (r : α) (emsg : String)
    (hm : method args (cleanedKwargs kwargs) = .ok r)
    (ht : trackEnabled kwargs = true)
    (hf : ∀ tc, track_func tc = .error emsg) :
    (interceptCall method track_func name args kwargs s e).outcome = .ok r ∧
    (interceptCall method track_func name args kwargs s e).track_calls.length = 1 := by
  have := hf
  constructor
  · rw [interceptCall_outcome, hm]
  · rw [interceptCall_track_calls, ht, if_pos rfl, hm]
    rfl

/-- Concrete instance of the tracking-resilience claim, mirroring
`test_proxy_tracking_failure_resilience`. -/
theorem proxy_swallows_tracking_failure_witness :
    (interceptCall (α := Nat) (fun _ _ => .ok 42)
        (fun _ => .error "Tracking failed") "tracked_method" [.str "arg1"]
        [("kwarg", .str "value")] 3 7).outcome = .ok 42 ∧
    (interceptCall (α := Nat) (fun _ _ => .ok 42)
        (fun _ => .error "Tracking failed") "tracked_method" [.str "arg1"]
        [("kwarg", .str "value")] 3 7).track_calls.length = 1 :=
  proxy_swallows_tracking_failure _ _ _ _ _ _ _ _ "Tracking failed" rfl rfl
    (fun _ => rfl)

/-- C3: a `customer_id` keyword never reaches the wrapped method — the
forwarded keyword arguments contain no `customer_id` entry while every other
entry (except the tracking-only `track_usage`) is preserved, the positional
arguments are untouched, and the tracking function receives the popped
`customer_id` value. -/
theorem proxy_strips_customer_id {α : Type}
    (method : List PyVal → List (String × PyVal) → CallOutcome α)
    (track_func : TrackCall α → Except String Unit)
    (name : String) (args : List PyVal) (kwargs : List (String × PyVal))
    (s e : Nat) (c : PyVal)
    (hc : kwargs.find? (fun p => p.1 == "customer_id") = some ("customer_id", c)) :
    (∀ kv ∈ (interceptCall method track_func name args kwargs s e).forwarded_kwargs,
        kv.1 ≠ "customer_id") ∧
    (∀ kv ∈ kwargs, kv.1 ≠ "customer_id" → kv.1 ≠ "track_usage" →
        kv ∈ (interceptCall method track_func name args kwargs s e).forwarded_kwargs) ∧
    (interceptCall method track_func name args kwargs s e).forwarded_args = args ∧
    (∀ tc ∈ (interceptCall method track_func name args kwargs s e).track_calls,
        tc.customer_id = some c) := by
  have hp : poppedCustomerId kwargs = some c := by
    simp [poppedCustomerId, popKwarg, hc]
  refine ⟨?_, ?_, interceptCall_forwarded_args method track_func name args kwargs s e, ?_⟩
  · intro kv hkv
    rw [interceptCall_forwarded_kwargs] at hkv
    simp [cleanedKwargs, popKwarg, List.mem_filter] at hkv
    exact hkv.2.2
  · intro kv hkv h1 h2
    rw [interceptCall_forwarded_kwargs]
    simp [cleanedKwargs, popKwarg, List.mem_filter]
    exact ⟨hkv, h2, h1⟩
  · intro tc htc
    rw [interceptCall_track_calls] at htc
    by_cases ht : trackEnabled kwargs
    · rw [if_pos ht] at htc
      cases hcall : method args (cleanedKwargs kwargs) <;>
        rw [hcall] at htc <;> simp at htc <;> rw [htc, hp]
    · rw [if_neg ht] at htc
      simp at htc

/-- Concrete instance of the customer-id-stripping claim, mirroring
`test_proxy_customer_id_extraction`. -/
theorem proxy_strips_customer_id_witness :
    (∀ kv ∈ (interceptCall (α := Nat) (fun _ _ => .ok 0) (fun _ => .ok ())
        "tracked_method" [.str "arg1"]
        [("customer_id", .str "customer-123"), ("kwarg", .str "value")]
        3 7).forwarded_kwargs, kv.1 ≠ "customer_id") ∧
    (∀ kv ∈ [("customer_id", PyVal.str "customer-123"), ("kwarg", PyVal.str "value")],
        kv.1 ≠ "customer_id" → kv.1 ≠ "track_usage" →
        kv ∈ (interceptCall (α := Nat) (fun _ _ => .ok 0) (fun _ => .ok ())
          "tracked_method" [.str "arg1"]
          [("customer_id", .str "customer-123"), ("kwarg", .str "value")]
          3 7).forwarded_kwargs) ∧
    (interceptCall (α := Nat) (fun _ _ => .ok 0) (fun _ => .ok ())
        "tracked_method" [.str "arg1"]
        [("customer_id", .str "customer-123"), ("kwarg", .str "value")]
        3 7).forwarded_args = [.str "arg1"] ∧
    (∀ tc ∈ (interceptCall (α := Nat) (fun _ _ => .ok 0) (fun _ => .ok ())
        "tracked_method" [.str "arg1"]
        [("customer_id", .str "customer-123"), ("kwarg", .str "value")]
        3 7).track_calls, tc.customer_id = some (.str "customer-123")) :=
  proxy_strips_customer_id _ _ _ _ _ _ _ _ rfl

/-- C4: a call supplying `track_usage := false` produces no tracking-function
invocation, yet the wrapped method still runs on the cleaned keyword
arguments and its result reaches the caller. -/
theorem proxy_track_usage_false_skips_tracking {α : Type}
    (method : List PyVal → List (String × PyVal) → CallOutcome α)
    (track_func : TrackCall α → Except String Unit)
    (name : String) (args : List PyVal) (kwargs : List (String × PyVal))
    (s e : Nat) (r : α)
    (hv : (popKwarg (popKwarg kwargs "customer_id").2 "track_usage").1 =
      some (.bool false))
    (hm : method args (cleanedKwargs kwargs) = .ok r) :
    (interceptCall method track_func name args kwargs s e).track_calls = [] ∧
    (∀ kv ∈ (interceptCall method track_func name args kwargs s e).forwarded_kwargs,
        kv.1 ≠ "track_usage") ∧
    (interceptCall method track_func name args kwargs s e).outcome = .ok r := by
  have ht : trackEnabled kwargs = false := by
    simp [trackEnabled, hv, PyVal.truthy]
  refine ⟨?_, ?_, ?_⟩
  · rw [interceptCall_track_calls, ht, if_neg (by simp)]
  · intro kv hkv
    rw [interceptCall_forwarded_kwargs] at hkv
    simp [cleanedKwargs, popKwarg, List.mem_filter] at hkv
    exact hkv.2.1
  · rw [interceptCall_outcome, hm]

/-- Concrete instance of the tracking-disabled claim, mirroring
`test_proxy_tracking_disabled`. -/
theorem proxy_track_usage_false_witness :
    (interceptCall (α := Nat) (fun _ _ => .ok 9) (fun _ => .ok ())
        "tracked_method" [.str "arg1"]
        [("track_usage", .bool false), ("kwarg", .str "value")]
        3 7).track_calls = [] ∧
    (∀ kv ∈ (interceptCall (α := Nat) (fun _ _ => .ok 9) (fun _ => .ok ())
        "tracked_method" [.str "arg1"]
        [("track_usage", .bool false), ("kwarg", .str "value")]
        3 7).forwarded_kwargs, kv.1 ≠ "track_usage") ∧
    (interceptCall (α := Nat) (fun _ _ => .ok 9) (fun _ => .ok ())
        "tracked_method" [.str "arg1"]
        [("track_usage", .bool false), ("kwarg", .str "value")]
        3 7).outcome = .ok 9 :=
  proxy_track_usage_false_skips_tracking _ _ _ _ _ _ _ _ rfl rfl

/-- C6: for a path registered under a nested key (modelled as the segment
list `[seg1, seg2]`), accessing the first segment yields a nested proxy over
the sub-object carrying exactly the flat registration `[seg2]`; calling the
final method through it is literally the flat registered call — it goes
through `interceptCall` on the underlying method with the same arguments. -/
theorem nested_proxy_tracks_like_flat {α : Type}
    (client sub : Client α)
    (m : List PyVal → List (String × PyVal) → CallOutcome α)
    (f : TrackCall α → Except String Unit)
    (seg1 seg2 : String) (args : List PyVal) (kwargs : List (String × PyVal))
    (s e : Nat)
    (hattr : lookupAttr client seg1 = some sub)
    (hleaf : lookupAttr sub seg2 = some (.leaf m)) :
    TrackedProxy.getattr ⟨client, [([seg1, seg2], f)]⟩ seg1
      = .nested ⟨sub, [([seg2], f)]⟩ ∧
    TrackedProxy.callMethod ⟨sub, [([seg2], f)]⟩ seg2 args kwargs s e
      = some (interceptCall m f seg2 args kwargs s e) := by
  constructor
  · unfold TrackedProxy.getattr
    rw [hattr]
    simp [rootsAt, subRegistry]
  · unfold TrackedProxy.callMethod
    rw [hleaf]
    simp

/-- Concrete instance of the nested-proxy claim, mirroring
`test_proxy_handles_nested_attributes`. -/
theorem nested_proxy_tracks_like_flat_witness :
    TrackedProxy.getattr
      (⟨.node [("messages", .node [("create", .leaf (fun _ _ => .ok 5))])],
        [(["messages", "create"], fun _ => .ok ())]⟩ : TrackedProxy Nat)
      "messages"
      = .nested ⟨.node [("create", .leaf (fun _ _ => .ok 5))],
                 [(["create"], fun _ => .ok ())]⟩ ∧
    TrackedProxy.callMethod
      (⟨.node [("create", .leaf (fun _ _ => .ok 5))],
        [(["create"], fun _ => .ok ())]⟩ : TrackedProxy Nat)
      "create" [.str "arg1"] [("kwarg", .str "value")] 3 7
      = some (interceptCall (fun _ _ => .ok 5) (fun _ => .ok ()) "create"
          [.str "arg1"] [("kwarg", .str "value")] 3 7) :=
  nested_proxy_tracks_like_flat _ _ _ _ _ _ _ _ _ _ rfl rfl

/-- C5: a successful `messages.create` result carrying usage information
yields exactly one tracker submission, with the supplied customer id, the
result's model and token counts, provider `"anthropic"`, and metadata built
from the result's id/type/role/stop_reason/stop_sequence. -/
theorem track_messages_create_success_submission
    (r : AnthropicResponse) (u : Usage) (c : String)
    (kwargs_model : Option String)
    (et ec em rid : Option String) (rst ret : Option Nat)
    (amb : Option String)
    (hu : r.usage = some u) :
    track_messages_create (some r) (some c) kwargs_model false
        et ec em rid rst ret amb =
      [{ customer_id := some c, model := r.model,
         input_tokens := u.input_tokens, output_tokens := u.output_tokens,
         provider := "anthropic", metadata := some (responseMetadata r),
         error_occurred := false, error_type := Option.none,
         error_code := Option.none, error_message := Option.none,
         request_id := rid, request_start_time := rst,
         request_end_time := ret }] := by
  simp [track_messages_create, hu]

/-- Concrete instance of the success-submission claim, mirroring
`test_track_messages_create_success`. -/
theorem track_messages_create_success_witness :
    track_messages_create
      (some { id := "msg_123", type := "message", role := "assistant",
              model := "claude-sonnet-4-20250514",
              stop_reason := some "end_turn", stop_sequence := Option.none,
              usage := some { input_tokens := 10, output_tokens := 20 } })
      (some "customer-123") (some "claude-sonnet-4-20250514") false
      Option.none Option.none Option.none Option.none Option.none Option.none
      Option.none =
    [{ customer_id := some "customer-123", model := "claude-sonnet-4-20250514",
       input_tokens := 10, output_tokens := 20, provider := "anthropic",
       metadata := some { response_id := "msg_123", type := "message",
                          role := "assistant", stop_reason := some "end_turn",
                          stop_sequence := Option.none },
       error_occurred := false, error_type := Option.none,
       error_code := Option.none, error_message := Option.none,
       request_id := Option.none, request_start_time := Option.none,
       request_end_time := Option.none }] :=
  track_messages_create_success_submission _ _ _ _ _ _ _ _ _ _ _ rfl

/-- C7: every record this extractor emits satisfies the UsageRecord
invariant — an error record has zero token counts and no result-derived
metadata, and a success record's token counts and metadata come from the
successful result's usage field. -/
theorem usage_record_error_invariant
    (result : Option AnthropicResponse) (cid km : Option String) (eo : Bool)
    (et ec em rid : Option String) (rst ret : Option Nat) (amb : Option String)
    (sub : Submission)
    (hmem : sub ∈ track_messages_create result cid km eo et ec em rid rst ret amb) :
    (sub.error_occurred = true → sub.input_tokens = 0 ∧ sub.output_tokens = 0 ∧
      sub.metadata = Option.none) ∧
    (sub.error_occurred = false → ∃ r u, result = some r ∧ r.usage = some u ∧
      sub.metadata = some (responseMetadata r) ∧
      sub.input_tokens = u.input_tokens ∧ sub.output_tokens = u.output_tokens) := by
  unfold track_messages_create at hmem
  by_cases heo : eo
  · rw [if_pos heo] at hmem
    simp at hmem
    subst hmem
    refine ⟨fun _ => ⟨rfl, rfl, rfl⟩, fun h => absurd h (by simp)⟩
  · rw [if_neg heo] at hmem
    cases result with
    | none => simp at hmem
    | some r =>
      cases hru : r.usage with
      | none => simp [hru] at hmem
      | some u =>
        simp [hru] at hmem
        subst hmem
        exact ⟨fun h => absurd h (by simp), fun _ => ⟨r, u, rfl, hru, rfl, rfl, rfl⟩⟩

/-- Concrete instance of the record invariant, on the error record of
`test_track_messages_create_with_error`. -/
theorem usage_record_error_invariant_witness :
    ({ customer_id := some "customer-123", model := "claude-sonnet-4-20250514",
       input_tokens := 0, output_tokens := 0, provider := "anthropic",
       metadata := Option.none, error_occurred := true,
       error_type := some "authentication", error_code := some "401",
       error_message := some "Invalid API key", request_id := some "req_abc",
       request_start_time := some 1, request_end_time := some 2 } : Submission).input_tokens = 0 ∧
    ({ customer_id := some "customer-123", model := "claude-sonnet-4-20250514",
       input_tokens := 0, output_tokens := 0, provider := "anthropic",
       metadata := Option.none, error_occurred := true,
       error_type := some "authentication", error_code := some "401",
       error_message := some "Invalid API key", request_id := some "req_abc",
       request_start_time := some 1, request_end_time := some 2 } : Submission).output_tokens = 0 ∧
    ({ customer_id := some "customer-123", model := "claude-sonnet-4-20250514",
       input_tokens := 0, output_tokens := 0, provider := "anthropic",
       metadata := Option.none, error_occurred := true,
       error_type := some "authentication", error_code := some "401",
       error_message := some "Invalid API key", request_id := some "req_abc",
       request_start_time := some 1, request_end_time := some 2 } : Submission).metadata = Option.none :=
  (usage_record_error_invariant Option.none (some "customer-123")
    (some "claude-sonnet-4-20250514") true (some "authentication")
    (some "401") (some "Invalid API key") (some "req_abc") (some 1) (some 2)
    Option.none _ (by decide)).1 rfl

/-- C8: a `messages.create` result without a usage field produces no tracker
submission at all — the extractor is a deliberate no-op there. -/
theorem track_messages_create_no_usage_noop
    (r : AnthropicResponse) (cid km : Option String)
    (et ec em rid : Option String) (rst ret : Option Nat) (amb : Option String)
    (hu : r.usage = Option.none) :
    track_messages_create (some r) cid km false et ec em rid rst ret amb = [] := by
  simp [track_messages_create, hu]

/-- Concrete instance of the no-usage no-op claim, mirroring
`test_track_messages_create_no_usage_info`. -/
theorem track_messages_create_no_usage_witness :
    track_messages_create
      (some { id := "msg_123", type := "message", role := "assistant",
              model := "claude-sonnet-4-20250514",
              stop_reason := some "end_turn", stop_sequence := Option.none,
              usage := Option.none })
      (some "customer-123") Option.none false
      Option.none Option.none Option.none Option.none Option.none Option.none
      Option.none = [] :=
  track_messages_create_no_usage_noop _ _ _ _ _ _ _ _ _ _ rfl
/-! ## Helper lemmas about the configuration loader -/

/-- A truthy optional string is in particular present. -/
theorem struthy_isSome (o : Option String) (h : struthy o = true) :
    o.isSome = true := by
  cases o with
  | none => simp [struthy] at h
  | some s => rfl

/-- Step 1: the api key after the environment stage. -/
theorem stage_env_api_key (fs : FsState) :
    (stage_env fs).api_key =
      if struthy fs.env_api_key then fs.env_api_key else Option.none := by
  unfold stage_env
  by_cases h1 : struthy fs.env_api_key <;> by_cases h2 : struthy fs.env_api_url <;>
    simp [h1, h2]

/-- Step 1: the api url after the environment stage. -/
theorem stage_env_api_url (fs : FsState) :
    (stage_env fs).api_url =
      if struthy fs.env_api_url then fs.env_api_url else some defaultApiUrl := by
  unfold stage_env
  by_cases h1 : struthy fs.env_api_key <;> by_cases h2 : struthy fs.env_api_url <;>
    simp [h1, h2]

/-- The `.env` loop leaves the api key at the value of the last
`CMDRDATA_API_KEY=` line, or untouched when there is none. -/
theorem foldl_dotenv_api_key (lines : List String) :
    ∀ cfg : Config,
    (lines.foldl applyDotenvLine cfg).api_key =
      match lines.reverse.find? isKeyLine with
      | some l => some (envLineValue l)
      | Option.none => cfg.api_key := by
  induction lines with
  | nil => intro cfg; rfl
  | cons l ls ih =>
    intro cfg
    rw [List.foldl_cons, ih (applyDotenvLine cfg l), List.reverse_cons,
        List.find?_append]
    cases hfind : ls.reverse.find? isKeyLine with
    | some x => simp [Option.or]
    | none =>
      by_cases hl : startsWithStr l "CMDRDATA_API_KEY="
      · simp [Option.or, List.find?, isKeyLine, hl, applyDotenvLine]
      · by_cases hu : startsWithStr l "CMDRDATA_API_URL=" <;>
          simp [Option.or, List.find?, isKeyLine, hl, hu, applyDotenvLine]

/-- The `.env` loop leaves the api url at the value of the last url-setting
line, or untouched when there is none. -/
theorem foldl_dotenv_api_url (lines : List String) :
    ∀ cfg : Config,
    (lines.foldl applyDotenvLine cfg).api_url =
      match lines.reverse.find? isUrlLine with
      | some l => some (envLineValue l)
      | Option.none => cfg.api_url := by
  induction lines with
  | nil => intro cfg; rfl
  | cons l ls ih =>
    intro cfg
    rw [List.foldl_cons, ih (applyDotenvLine cfg l), List.reverse_cons,
        List.find?_append]
    cases hfind : ls.reverse.find? isUrlLine with
    | some x => simp [Option.or]
    | none =>
      by_cases hl : startsWithStr l "CMDRDATA_API_KEY="
      · simp [Option.or, List.find?, isUrlLine, hl, applyDotenvLine]
      · by_cases hu : startsWithStr l "CMDRDATA_API_URL=" <;>
          simp [Option.or, List.find?, isUrlLine, hl, hu, applyDotenvLine]

/-- Step 2 is skipped once a truthy api key is held. -/
theorem stage_dotenv_skip (file : Option (Except Unit (List String)))
    (cfg : Config) (h : struthy cfg.api_key = true) :
    stage_dotenv file cfg = cfg := by
  unfold stage_dotenv
  cases file with
  | none => rfl
  | some r =>
    cases r with
    | ok lines => simp [h]
    | error u => rfl

/-- Step 2: the api key after the `.env` stage, when no truthy key is held. -/
theorem stage_dotenv_api_key (file : Option (Except Unit (List String)))
    (cfg : Config) (h : struthy cfg.api_key = false) :
    (stage_dotenv file cfg).api_key =
      match file with
      | some (.ok lines) =>
        (match lines.reverse.find? isKeyLine with
         | some l => some (envLineValue l)
         | Option.none => cfg.api_key)
      | _ => cfg.api_key := by
  unfold stage_dotenv
  cases file with
  | none => rfl
  | some r =>
    cases r with
    | ok lines => simp [h, foldl_dotenv_api_key]
    | error u => rfl

/-- Step 2: the api url after the `.env` stage, when no truthy key is held. -/
theorem stage_dotenv_api_url (file : Option (Except Unit (List String)))
    (cfg : Config) (h : struthy cfg.api_key = false) :
    (stage_dotenv file cfg).api_url =
      match file with
      | some (.ok lines) =>
        (match lines.reverse.find? isUrlLine with
         | some l => some (envLineValue l)
         | Option.none => cfg.api_url)
      | _ => cfg.api_url := by
  unfold stage_dotenv
  cases file with
  | none => rfl
  | some r =>
    cases r with
    | ok lines => simp [h, foldl_dotenv_api_url]
    | error u => rfl

/-- Steps 3/4 are skipped once a truthy api key is held. -/
theorem stage_json_skip (file : Option (Except Unit JsonConfig))
    (cfg : Config) (h : struthy cfg.api_key = true) :
    stage_json file cfg = cfg := by
  unfold stage_json
  cases file with
  | none => rfl
  | some r =>
    cases r with
    | ok d => simp [h]
    | error u => rfl

/-- Steps 3/4: the api key after a JSON-config stage, when no truthy key is
held — note the file's `api_key` is taken even when it is `none`. -/
theorem stage_json_api_key (file : Option (Except Unit JsonConfig))
    (cfg : Config) (h : struthy cfg.api_key = false) :
    (stage_json file cfg).api_key =
      match file with
      | some (.ok d) => d.api_key
      | _ => cfg.api_key := by
  unfold stage_json applyJsonConfig
  cases file with
  | none => rfl
  | some r =>
    cases r with
    | ok d => by_cases hu : struthy d.api_url <;> simp [h, hu]
    | error u => rfl

/-- Steps 3/4: the api url after a JSON-config stage, when no truthy key is
held. -/
theorem stage_json_api_url (file : Option (Except Unit JsonConfig))
    (cfg : Config) (h : struthy cfg.api_key = false) :
    (stage_json file cfg).api_url =
      match file with
      | some (.ok d) => if struthy d.api_url then d.api_url else cfg.api_url
      | _ => cfg.api_url := by
  unfold stage_json applyJsonConfig
  cases file with
  | none => rfl
  | some r =>
    cases r with
    | ok d => by_cases hu : struthy d.api_url <;> simp [h, hu]
    | error u => rfl

/-- Every stage keeps the api url present. -/
theorem stage_dotenv_url_isSome (file : Option (Except Unit (List String)))
    (cfg : Config) (h : cfg.api_url.isSome = true) :
    (stage_dotenv file cfg).api_url.isSome = true := by
  by_cases hk : struthy cfg.api_key
  · rw [stage_dotenv_skip file cfg hk]; exact h
  · rw [stage_dotenv_api_url file cfg (by simpa using hk)]
    cases file with
    | none => exact h
    | some r =>
      cases r with
      | ok lines =>
        dsimp only
        cases hfind : lines.reverse.find? isUrlLine with
        | some l => rfl
        | none => exact h
      | error u => exact h

/-- Every stage keeps the api url present. -/
theorem stage_json_url_isSome (file : Option (Except Unit JsonConfig))
    (cfg : Config) (h : cfg.api_url.isSome = true) :
    (stage_json file cfg).api_url.isSome = true := by
  by_cases hk : struthy cfg.api_key
  · rw [stage_json_skip file cfg hk]; exact h
  · rw [stage_json_api_url file cfg (by simpa using hk)]
    cases file with
    | none => exact h
    | some r =>
      cases r with
      | ok d =>
        dsimp only
        by_cases hu : struthy d.api_url
        · rw [if_pos hu]; exact struthy_isSome _ hu
        · rw [if_neg (by simpa using hu)]; exact h
      | error u => exact h

/-- A `.env` stage whose file sets no url leaves the api url untouched. -/
theorem stage_dotenv_url_of_no_url_line (file : Option (Except Unit (List String)))
    (cfg : Config)
    (h : (match file with
          | some (.ok lines) => lines.any (fun l => startsWithStr l "CMDRDATA_API_URL=")
          | _ => false) = false) :
    (stage_dotenv file cfg).api_url = cfg.api_url := by
  by_cases hk : struthy cfg.api_key
  · rw [stage_dotenv_skip file cfg hk]
  · rw [stage_dotenv_api_url file cfg (by simpa using hk)]
    cases file with
    | none => rfl
    | some r =>
      cases r with
      | ok lines =>
        dsimp only
        dsimp only at h
        have hnone : lines.reverse.find? isUrlLine = Option.none := by
          rw [List.find?_eq_none]
          intro x hx
          have hxl : x ∈ lines := List.mem_reverse.mp hx
          have hfalse : startsWithStr x "CMDRDATA_API_URL=" = false := by
            by_contra hcon
            have hany : lines.any (fun l => startsWithStr l "CMDRDATA_API_URL=") = true :=
              List.any_eq_true.mpr ⟨x, hxl, by simpa using hcon⟩
            rw [hany] at h
            simp at h
          simp [isUrlLine, hfalse]
        rw [hnone]
      | error u => rfl

/-- A JSON stage whose file holds no truthy url leaves the api url
untouched. -/
theorem stage_json_url_of_no_url (file : Option (Except Unit JsonConfig))
    (cfg : Config)
    (h : (match file with
          | some (.ok d) => struthy d.api_url
          | _ => false) = false) :
    (stage_json file cfg).api_url = cfg.api_url := by
  by_cases hk : struthy cfg.api_key
  · rw [stage_json_skip file cfg hk]
  · rw [stage_json_api_url file cfg (by simpa using hk)]
    cases file with
    | none => rfl
    | some r =>
      cases r with
      | ok d =>
        dsimp only
        dsimp only at h
        rw [if_neg (by simp [h])]
      | error u => rfl

/-- C10: for every environment/filesystem state — including unreadable or
malformed files, which the loader's bare `except: pass` handlers absorb
(`load_config` is a total function of the state) — the returned mapping has
a present (non-`None`) `api_url`, and when no source supplies a url it is
the default `https://api.cmdrdata.ai`; the `api_key` entry is always present
by construction (`Config` carries both fields), possibly `None`. -/
theorem load_config_url_always_present (fs : FsState) :
    ((AutoConfig.load_config fs).api_url).isSome = true ∧
    (someSourceSuppliesUrl fs = false →
      (AutoConfig.load_config fs).api_url = some defaultApiUrl) := by
  constructor
  · unfold AutoConfig.load_config
    apply stage_json_url_isSome
    apply stage_json_url_isSome
    apply stage_dotenv_url_isSome
    rw [stage_env_api_url]
    by_cases h2 : struthy fs.env_api_url
    · rw [if_pos h2]; exact struthy_isSome _ h2
    · rw [if_neg (by simpa using h2)]; rfl
  · intro h
    unfold someSourceSuppliesUrl at h
    obtain ⟨h123, h4⟩ := Bool.or_eq_false_iff.mp h
    obtain ⟨h12, h3⟩ := Bool.or_eq_false_iff.mp h123
    obtain ⟨h1, h2⟩ := Bool.or_eq_false_iff.mp h12
    unfold AutoConfig.load_config
    rw [stage_json_url_of_no_url _ _ h4,
        stage_json_url_of_no_url _ _ h3,
        stage_dotenv_url_of_no_url_line _ _ h2,
        stage_env_api_url, if_neg (by simp [h1])]
/-- When the `.env` source defines a truthy api key and none is yet held,
the `.env` stage adopts exactly that source value. -/
theorem stage_dotenv_key_of_truthy_src (file : Option (Except Unit (List String)))
    (cfg : Config) (hc : struthy cfg.api_key = false)
    (hs : struthy (srcDotenvKey file) = true) :
    (stage_dotenv file cfg).api_key = srcDotenvKey file := by
  rw [stage_dotenv_api_key file cfg hc]
  cases file with
  | none => simp [srcDotenvKey, struthy] at hs
  | some r =>
    cases r with
    | ok lines =>
      dsimp only
      unfold srcDotenvKey at hs ⊢
      dsimp only at hs ⊢
      cases hfind : lines.reverse.find? isKeyLine with
      | some l => rfl
      | none => rw [hfind] at hs; simp [struthy] at hs
    | error u => simp [srcDotenvKey, struthy] at hs

/-- When the `.env` source defines no truthy api key, the `.env` stage
cannot produce one either. -/
theorem stage_dotenv_key_of_falsy_src (file : Option (Except Unit (List String)))
    (cfg : Config) (hc : struthy cfg.api_key = false)
    (hs : struthy (srcDotenvKey file) = false) :
    struthy (stage_dotenv file cfg).api_key = false := by
  rw [stage_dotenv_api_key file cfg hc]
  cases file with
  | none => exact hc
  | some r =>
    cases r with
    | ok lines =>
      dsimp only
      unfold srcDotenvKey at hs
      dsimp only at hs
      cases hfind : lines.reverse.find? isKeyLine with
      | some l => rw [hfind] at hs; simpa using hs
      | none => exact hc
    | error u => exact hc

/-- When a JSON source defines a truthy api key and none is yet held, the
corresponding stage adopts exactly that source value. -/
theorem stage_json_key_of_truthy_src (file : Option (Except Unit JsonConfig))
    (cfg : Config) (hc : struthy cfg.api_key = false)
    (hs : struthy (srcJsonKey file) = true) :
    (stage_json file cfg).api_key = srcJsonKey file := by
  rw [stage_json_api_key file cfg hc]
  cases file with
  | none => simp [srcJsonKey, struthy] at hs
  | some r =>
    cases r with
    | ok d => rfl
    | error u => simp [srcJsonKey, struthy] at hs

/-- When a JSON source defines no truthy api key, the corresponding stage
cannot produce one either. -/
theorem stage_json_key_of_falsy_src (file : Option (Except Unit JsonConfig))
    (cfg : Config) (hc : struthy cfg.api_key = false)
    (hs : struthy (srcJsonKey file) = false) :
    struthy (stage_json file cfg).api_key = false := by
  rw [stage_json_api_key file cfg hc]
  cases file with
  | none => exact hc
  | some r =>
    cases r with
    | ok d => exact hs
    | error u => exact hc
/-- C9 (amended): the api key is resolved in strict priority order — the
highest-priority source supplying a non-empty key always wins — but the api
url is not resolved per-value: a file source's url is consulted only while
no api key has been found, so in particular once the environment supplies
the api key the url is the environment's url or the default. -/
theorem load_config_key_priority_url_gated (fs : FsState) :
    ((highestTruthyKey fs).isSome = true →
      (AutoConfig.load_config fs).api_key = highestTruthyKey fs) ∧
    (struthy fs.env_api_key = true →
      (AutoConfig.load_config fs).api_url =
        if struthy fs.env_api_url then fs.env_api_url else some defaultApiUrl) := by
  constructor
  · intro hsome
    unfold AutoConfig.load_config
    by_cases h1 : struthy fs.env_api_key
    · have hc1 : struthy (stage_env fs).api_key = true := by
        rw [stage_env_api_key, if_pos h1]; exact h1
      obtain ⟨v, hv⟩ := Option.isSome_iff_exists.mp (struthy_isSome _ h1)
      have h1c := h1
      rw [hv] at h1c
      have hk : highestTruthyKey fs = fs.env_api_key := by
        simp [highestTruthyKey, sourceApiKeys, List.findSome?_cons, hv, h1c]
      rw [stage_dotenv_skip _ _ hc1, stage_json_skip _ _ hc1, stage_json_skip _ _ hc1,
          stage_env_api_key, if_pos h1, hk]
    · have h1f : struthy fs.env_api_key = false := by simpa using h1
      have hc1 : struthy (stage_env fs).api_key = false := by
        rw [stage_env_api_key, if_neg (by simp [h1f])]; rfl
      by_cases h2 : struthy (srcDotenvKey fs.dotenv)
      · have e2 := stage_dotenv_key_of_truthy_src fs.dotenv (stage_env fs) hc1 h2
        have s2 : struthy (stage_dotenv fs.dotenv (stage_env fs)).api_key = true := by
          rw [e2]; exact h2
        obtain ⟨v, hv⟩ := Option.isSome_iff_exists.mp (struthy_isSome _ h2)
        have h2c := h2
        rw [hv] at h2c
        have hk : highestTruthyKey fs = srcDotenvKey fs.dotenv := by
          simp [highestTruthyKey, sourceApiKeys, List.findSome?_cons, h1f, hv, h2c]
        rw [stage_json_skip _ _ s2, stage_json_skip _ _ s2, e2, hk]
      · have h2f : struthy (srcDotenvKey fs.dotenv) = false := by simpa using h2
        have s2 : struthy (stage_dotenv fs.dotenv (stage_env fs)).api_key = false :=
          stage_dotenv_key_of_falsy_src _ _ hc1 h2f
        by_cases h3 : struthy (srcJsonKey fs.home_config)
        · have e3 := stage_json_key_of_truthy_src fs.home_config _ s2 h3
          have s3 : struthy (stage_json fs.home_config
              (stage_dotenv fs.dotenv (stage_env fs))).api_key = true := by
            rw [e3]; exact h3
          obtain ⟨v, hv⟩ := Option.isSome_iff_exists.mp (struthy_isSome _ h3)
          have h3c := h3
          rw [hv] at h3c
          have hk : highestTruthyKey fs = srcJsonKey fs.home_config := by
            simp [highestTruthyKey, sourceApiKeys, List.findSome?_cons, h1f, h2f, hv, h3c]
          rw [stage_json_skip _ _ s3, e3, hk]
        · have h3f : struthy (srcJsonKey fs.home_config) = false := by simpa using h3
          have s3 : struthy (stage_json fs.home_config
              (stage_dotenv fs.dotenv (stage_env fs))).api_key = false :=
            stage_json_key_of_falsy_src _ _ s2 h3f
          by_cases h4 : struthy (srcJsonKey fs.project_config)
          · have e4 := stage_json_key_of_truthy_src fs.project_config _ s3 h4
            obtain ⟨v, hv⟩ := Option.isSome_iff_exists.mp (struthy_isSome _ h4)
            have h4c := h4
            rw [hv] at h4c
            have hk : highestTruthyKey fs = srcJsonKey fs.project_config := by
              simp [highestTruthyKey, sourceApiKeys, List.findSome?_cons,
                h1f, h2f, h3f, hv, h4c]
            rw [e4, hk]
          · have h4f : struthy (srcJsonKey fs.project_config) = false := by simpa using h4
            exfalso
            have hnone : highestTruthyKey fs = Option.none := by
              simp [highestTruthyKey, sourceApiKeys, List.findSome?_cons,
                h1f, h2f, h3f, h4f]
            rw [hnone] at hsome
            simp at hsome
  · intro h1
    have hc1 : struthy (stage_env fs).api_key = true := by
      rw [stage_env_api_key, if_pos h1]; exact h1
    unfold AutoConfig.load_config
    rw [stage_dotenv_skip _ _ hc1, stage_json_skip _ _ hc1, stage_json_skip _ _ hc1,
        stage_env_api_url]
/-- C9 fails as stated: on `fsC9` the highest-priority source defining the
api url is `.env` (`http://dotenv.example`), yet `load_config` returns the
user-level config's url (`http://home.example`), because the user-level file
is consulted for its url merely for holding the api key — resolution is not
per-value strict priority. -/
theorem load_config_not_strict_priority :
    AutoConfig.load_config fsC9 ≠ strictPriorityResolve fsC9 ∧
    (AutoConfig.load_config fsC9).api_url = some "http://home.example" ∧
    (strictPriorityResolve fsC9).api_url = some "http://dotenv.example" :=
  ⟨by decide, by decide, by decide⟩

/-- Concrete instance of the amended priority claim: the environment's key
wins, and the `.env` url is ignored in favour of the default. -/
theorem load_config_key_priority_witness :
    (AutoConfig.load_config fsAmend).api_key = highestTruthyKey fsAmend ∧
    (AutoConfig.load_config fsAmend).api_url =
      (if struthy fsAmend.env_api_url then fsAmend.env_api_url
       else some defaultApiUrl) :=
  ⟨(load_config_key_priority_url_gated fsAmend).1 (by decide),
   (load_config_key_priority_url_gated fsAmend).2 (by decide)⟩

/-- Concrete instance of the default-url claim: with an unreadable home
config and a `.env` supplying only a key, the url is present and is the
default. -/
theorem load_config_url_default_witness :
    ((AutoConfig.load_config fsNoUrl).api_url).isSome = true ∧
    (AutoConfig.load_config fsNoUrl).api_url = some defaultApiUrl :=
  ⟨(load_config_url_always_present fsNoUrl).1,
   (load_config_url_always_present fsNoUrl).2 (by decide)⟩
